import Mathlib

/-!
Verification of the call-interception layer in spybase.py.

The Python module defines a mixin class SpyBase. When a subclass
`class Spy(SpyBase, Wrapped)` is defined, `SpyBase.__init_subclass__` walks
the member table of the class found immediately after SpyBase in the method
resolution order, and for every non-dunder member that the subclass does not
itself declare it installs a forwarding wrapper that appends a CallInfo
record to a shared class-level list before delegating to the original
implementation.

The embedding below is parametric in the Python value type `V`.  Python
callables that can raise are modelled as functions into `Except String V`
(the error payload is the exception message).  The call log is threaded
explicitly: a wrapped callable takes the current log and returns the result
together with the new log.
-/

namespace Spybase

/-- Transcribes `class CallType(str, Enum)` of spybase.py: the four record
kinds the code distinguishes. -/
inductive CallType where
  | instance_method
  | class_method
  | static_method
  | property
deriving DecidableEq, Repr

/-- The string value of each enum member, as declared in the source. -/
def CallType.value : CallType → String
  | .instance_method => "method"
  | .class_method => "classmethod"
  | .static_method => "staticmethod"
  | .property => "property"

/-- Keyword arguments of a Python call: an insertion-ordered mapping. -/
abbrev Kwargs (V : Type) := List (String × V)

/-- Result of a Python call: a value, or a raised exception (its message). -/
abbrev PyRes (V : Type) := Except String V

/-- Transcribes `@dataclass class CallInfo` of spybase.py. -/
structure CallInfo (V : Type) where
  type : CallType
  class_name : String
  name : String
  args : List V
  kwargs : Kwargs V
deriving DecidableEq, Repr

/-- The call log: SpyBase._calls, an ordered list of records. -/
abbrev Log (V : Type) := List (CallInfo V)

/-- A member of a Python class __dict__, classified exactly as the
isinstance chain in `__init_subclass__` classifies it: property,
staticmethod, classmethod, plain function (instance method), or any other
attribute (data), which the loop leaves untouched. -/
inductive Attr (V : Type) where
  | prop (fget : Option (V → PyRes V)) (fset : Option (V → V → PyRes V))
      (fdel : Option (V → PyRes V))
  | staticmethod (f : List V → Kwargs V → PyRes V)
  | classmethod (f : String → List V → Kwargs V → PyRes V)
  | function (f : V → List V → Kwargs V → PyRes V)
  | data (v : V)

/-- A Python class: its __name__ and its directly declared __dict__,
kept as an insertion-ordered association list. -/
structure PyClass (V : Type) where
  name : String
  dict : List (String × Attr V)

/-- A member after the spy machinery may have touched it: the same five
shapes, but each callable now also receives and returns the call log. -/
inductive WAttr (V : Type) where
  | prop (fget : Option (V → Log V → PyRes V × Log V))
      (fset : Option (V → V → Log V → PyRes V × Log V))
      (fdel : Option (V → Log V → PyRes V × Log V))
  | staticmethod (f : List V → Kwargs V → Log V → PyRes V × Log V)
  | classmethod (f : String → List V → Kwargs V → Log V → PyRes V × Log V)
  | function (f : V → List V → Kwargs V → Log V → PyRes V × Log V)
  | data (v : V)

variable {V : Type}

/-- Python dict lookup on an association list (first binding wins; a real
dict has unique keys, so this is exact). -/
def dict_get (m : String) : List (String × α) → Option α
  | [] => none
  | p :: t => if p.1 = m then some p.2 else dict_get m t

/-- Transcribes `name.startswith("__")`, the dunder skip in the loop:
true exactly when the first two characters are underscores. -/
def is_dunder (s : String) : Bool :=
  match s.data with
  | '_' :: '_' :: _ => true
  | _ => false

/-- Transcribes `SpyBase._wrap_instance_method`: append a CallInfo with
kind method, then call the original with the same receiver and arguments,
returning its result (or propagating its raised error) unchanged. -/
def wrap_instance_method (class_name m : String)
    (method : V → List V → Kwargs V → PyRes V) :
    V → List V → Kwargs V → Log V → PyRes V × Log V :=
  fun self args kwargs log =>
    let log := log ++ [⟨CallType.instance_method, class_name, m, args, kwargs⟩]
    (method self args kwargs, log)

/-- Transcribes `SpyBase._wrap_class_method`: the wrapper receives the
class it was invoked on (modelled by its name), logs the explicit
arguments only, then delegates. -/
def wrap_class_method (class_name m : String)
    (method : String → List V → Kwargs V → PyRes V) :
    String → List V → Kwargs V → Log V → PyRes V × Log V :=
  fun inner_cls args kwargs log =>
    let log := log ++ [⟨CallType.class_method, class_name, m, args, kwargs⟩]
    (method inner_cls args kwargs, log)

/-- Transcribes `SpyBase._wrap_static_method`. -/
def wrap_static_method (class_name m : String)
    (method : List V → Kwargs V → PyRes V) :
    List V → Kwargs V → Log V → PyRes V × Log V :=
  fun args kwargs log =>
    let log := log ++ [⟨CallType.static_method, class_name, m, args, kwargs⟩]
    (method args kwargs, log)

/-- Transcribes `SpyBase._wrap_property`: builds a new property whose
accessors append a record named `name.get` / `name.set` / `name.del`
(all of kind property) before delegating; an accessor is installed only
if the original property has one (`fget=getter if prop.fget else None`). -/
def wrap_property (class_name m : String)
    (fget : Option (V → PyRes V)) (fset : Option (V → V → PyRes V))
    (fdel : Option (V → PyRes V)) : WAttr V :=
  WAttr.prop
    (fget.map fun g => fun self log =>
      let log := log ++ [⟨CallType.property, class_name, m ++ ".get", [], []⟩]
      (g self, log))
    (fset.map fun s => fun self v log =>
      let log := log ++ [⟨CallType.property, class_name, m ++ ".set", [v], []⟩]
      (s self v, log))
    (fdel.map fun d => fun self log =>
      let log := log ++ [⟨CallType.property, class_name, m ++ ".del", [], []⟩]
      (d self, log))

/-- One iteration of the `for name, attr in original_class.__dict__.items()`
loop of `__init_subclass__`: skip dunder names, skip names the spy class
declares itself, otherwise build the wrapper matching the member kind
(data attributes fall through the isinstance chain and are not wrapped). -/
def wrap_entry (spy_dict : List (String × Attr V)) (class_name : String)
    (p : String × Attr V) : Option (String × WAttr V) :=
  if is_dunder p.1 then none
  else if (dict_get p.1 spy_dict).isSome then none
  else
    match p.2 with
    | Attr.prop g s d => some (p.1, wrap_property class_name p.1 g s d)
    | Attr.staticmethod f =>
        some (p.1, WAttr.staticmethod (wrap_static_method class_name p.1 f))
    | Attr.classmethod f =>
        some (p.1, WAttr.classmethod (wrap_class_method class_name p.1 f))
    | Attr.function f =>
        some (p.1, WAttr.function (wrap_instance_method class_name p.1 f))
    | Attr.data _ => none

/-- The wrappers `__init_subclass__` installs on the spy class via setattr:
the whole loop over the wrapped class member table. -/
def install (spy_dict : List (String × Attr V)) (orig : PyClass V) :
    List (String × WAttr V) :=
  orig.dict.filterMap (wrap_entry spy_dict orig.name)

/-- Lifts an untouched member to the logging signature: it neither reads
nor extends the log.  This is how the spy class own (overriding) members
and direct calls on the wrapped class behave. -/
def Attr.lift : Attr V → WAttr V
  | .prop g s d =>
      WAttr.prop (g.map fun gg => fun self log => (gg self, log))
        (s.map fun ss => fun self v log => (ss self v, log))
        (d.map fun dd => fun self log => (dd self, log))
  | .staticmethod f => WAttr.staticmethod fun args kw log => (f args kw, log)
  | .classmethod f => WAttr.classmethod fun c args kw log => (f c args kw, log)
  | .function f => WAttr.function fun self args kw log => (f self args kw, log)
  | .data v => WAttr.data v

/-- The effective member table of the spy class after `__init_subclass__`:
its own declarations (looked up first, as in attribute resolution) followed
by the installed wrappers. -/
def spy_table (spy_dict : List (String × Attr V)) (orig : PyClass V) :
    List (String × WAttr V) :=
  (spy_dict.map fun p => (p.1, p.2.lift)) ++ install spy_dict orig

/-- The six ways a member can be invoked, each with its implicit receiver
(instance, class, or none) and the explicit arguments. -/
inductive Invocation (V : Type) where
  | method (self : V) (args : List V) (kwargs : Kwargs V)
  | class_call (cls : String) (args : List V) (kwargs : Kwargs V)
  | static_call (args : List V) (kwargs : Kwargs V)
  | prop_get (self : V)
  | prop_set (self : V) (value : V)
  | prop_del (self : V)

/-- Invoking a (possibly wrapped) member.  A convention mismatch yields
none; invoking a missing property accessor raises AttributeError with the
log untouched, exactly as the property descriptor protocol does. -/
def WAttr.call : WAttr V → Invocation V → Log V → Option (PyRes V × Log V)
  | .function f, .method self args kw, log => some (f self args kw log)
  | .classmethod f, .class_call c args kw, log => some (f c args kw log)
  | .staticmethod f, .static_call args kw, log => some (f args kw log)
  | .prop g _ _, .prop_get self, log =>
      some (match g with
        | some gg => gg self log
        | none => (Except.error "AttributeError", log))
  | .prop _ s _, .prop_set self v, log =>
      some (match s with
        | some ss => ss self v log
        | none => (Except.error "AttributeError", log))
  | .prop _ _ d, .prop_del self, log =>
      some (match d with
        | some dd => dd self log
        | none => (Except.error "AttributeError", log))
  | _, _, _ => none

/-- Invoking an original member directly, without any log: the behavior of
the wrapped class untouched by the spy machinery. -/
def Attr.callPure : Attr V → Invocation V → Option (PyRes V)
  | .function f, .method self args kw => some (f self args kw)
  | .classmethod f, .class_call c args kw => some (f c args kw)
  | .staticmethod f, .static_call args kw => some (f args kw)
  | .prop g _ _, .prop_get self =>
      some (match g with
        | some gg => gg self
        | none => Except.error "AttributeError")
  | .prop _ s _, .prop_set self v =>
      some (match s with
        | some ss => ss self v
        | none => Except.error "AttributeError")
  | .prop _ _ d, .prop_del self =>
      some (match d with
        | some dd => dd self
        | none => Except.error "AttributeError")
  | _, _ => none

/-- Invoking a named member through a member table. -/
def call_member (table : List (String × WAttr V)) (m : String)
    (inv : Invocation V) (log : Log V) : Option (PyRes V × Log V) :=
  (dict_get m table).bind fun w => w.call inv log

/-- Invoking a named member directly on a class, bypassing the spy: the
log is returned unchanged alongside the result. -/
def PyClass.call_direct (c : PyClass V) (m : String) (inv : Invocation V)
    (log : Log V) : Option (PyRes V × Log V) :=
  (dict_get m c.dict).bind fun a => (a.callPure inv).map fun r => (r, log)

/-- An entry of a method resolution order: either the SpyBase mixin itself
or an ordinary class. -/
inductive MroEntry (V : Type) where
  | spy_base
  | cls (c : PyClass V)

/-- Whether an mro entry is the SpyBase mixin. -/
def MroEntry.is_spy_base : MroEntry V → Bool
  | .spy_base => true
  | .cls _ => false

/-- Transcribes the wrapped-class resolution of `__init_subclass__`:
`cls.__mro__.index(SpyBase)` then `cls.__mro__[spy_index + 1]`, with
ValueError (index not found) and IndexError (no next entry) both mapped to
`Exception("SpyBase must be used as a mixin with another class")`.  The
wildcard also covers a second spy_base entry, which a real mro cannot
contain (a class occurs once in __mro__). -/
def resolve_original (mro : List (MroEntry V)) : Except String (PyClass V) :=
  match mro.findIdx? MroEntry.is_spy_base with
  | none => Except.error "SpyBase must be used as a mixin with another class"
  | some i =>
    match mro.get? (i + 1) with
    | some (MroEntry.cls c) => Except.ok c
    | _ => Except.error "SpyBase must be used as a mixin with another class"

/-- Transcribes `SpyBase.__init_subclass__` as a whole: resolve the wrapped
class from the mro, then install the wrappers.  It returns the resulting
spy member table together with the (unmodified) mro, so that any mutation
of the surrounding classes would be visible in the result. -/
def init_subclass (spy_dict : List (String × Attr V))
    (mro : List (MroEntry V)) :
    Except String (List (String × WAttr V) × List (MroEntry V)) :=
  match resolve_original mro with
  | Except.error e => Except.error e
  | Except.ok orig => Except.ok (spy_table spy_dict orig, mro)

/-!
The storage of the call log.  `_calls` is a class attribute declared on
SpyBase itself and never reassigned: `get_calls` returns `cls._calls`,
`clear_calls` mutates it in place, and every wrapper closes over the spy
class and appends to `cls._calls`.  Python resolves `cls._calls` by walking
the mro: a subclass that declares its own `_calls` uses that one, any other
subclass reaches the single list stored on SpyBase.  The model keeps the
lists in a heap addressed by location; a class is abstracted to whether it
declares its own `_calls` storage. -/

/-- Mutable storage holding one call log per location. -/
abbrev Heap (V : Type) := Nat → Log V

/-- A spy class as seen by the `_calls` attribute resolution: its name and
its own `_calls` storage location, if it declares one (a class produced by
`__init_subclass__` declares none). -/
structure SpyClsRef where
  name : String
  calls_loc : Option Nat

/-- The SpyBase capability itself, which owns the default storage. -/
def spy_base_ref : SpyClsRef := ⟨"SpyBase", none⟩

/-- Attribute resolution for `cls._calls`: the class own storage if it
declares one, else the storage on SpyBase. -/
def resolve_calls_loc (spybase_loc : Nat) (c : SpyClsRef) : Nat :=
  c.calls_loc.getD spybase_loc

/-- Transcribes `get_calls`: `return cls._calls`.  Returns the resolved
list and the unchanged heap. -/
def get_calls_op (h : Heap V) (spybase_loc : Nat) (c : SpyClsRef) :
    Log V × Heap V :=
  (h (resolve_calls_loc spybase_loc c), h)

/-- Transcribes `cls._calls.append(info)` as executed by every wrapper. -/
def append_call (h : Heap V) (spybase_loc : Nat) (c : SpyClsRef)
    (info : CallInfo V) : Heap V :=
  fun l =>
    if l = resolve_calls_loc spybase_loc c then h l ++ [info] else h l

/-- Transcribes `clear_calls`: `cls._calls.clear()`, an in-place clear of
the resolved list. -/
def clear_calls_op (h : Heap V) (spybase_loc : Nat) (c : SpyClsRef) :
    Heap V :=
  fun l => if l = resolve_calls_loc spybase_loc c then [] else h l

/-!
Concrete instances used by the witnesses and counterexamples, with the
Python value type fixed to Nat.
-/

/-- A wrapped instance method: returns its first positional argument plus
one, like instance_method_normal in the test file. -/
def fW : Nat → List Nat → Kwargs Nat → PyRes Nat :=
  fun _ args _ => Except.ok (args.headD 0 + 1)

/-- A wrapped class with one instance method, for the C1 witness. -/
def origW : PyClass Nat := ⟨"MyTestClass", [("inc", Attr.function fW)]⟩

/-- An overriding instance method, for the C2 witness. -/
def aW : Attr Nat := Attr.function fun self _ _ => Except.ok (self + 10)

/-- A spy dict declaring one override, for the C2 witness. -/
def sdW2 : List (String × Attr Nat) := [("m", aW)]

/-- A wrapped class the C2 witness spies on. -/
def origW2 : PyClass Nat := ⟨"BaseC2", []⟩

/-- A property with get, set and delete accessors, wrapped: for the C4
counterexample about record kinds. -/
def propW : WAttr Nat :=
  wrap_property "Base" "p" (some fun _ => Except.ok 1)
    (some fun _ v => Except.ok v) (some fun _ => Except.ok 0)

/-- A wrapped class with a get/set property, for the C5 counterexample. -/
def origP : PyClass Nat :=
  ⟨"Base", [("p", Attr.prop (some fun _ => Except.ok 1)
    (some fun _ v => Except.ok v) none)]⟩

/-- A spy dict that redefines only the read accessor of p (a read-only
property), for the C5 counterexample. -/
def sdP : List (String × Attr Nat) :=
  [("p", Attr.prop (some fun _ => Except.ok 2) none none)]

/-- A wrapped class with a read-only property, for the C7 witness. -/
def gRO : Nat → PyRes Nat := fun s => Except.ok (s * 2)

/-- The class declaring the read-only property. -/
def origRO : PyClass Nat := ⟨"BaseRO", [("p", Attr.prop (some gRO) none none)]⟩

/-- The model of a standalone spy definition `class Foo(SpyBase)`: its mro
is (Foo, SpyBase, object).  object declares only dunder members, modelled
here by one representative entry. -/
def fooCls : PyClass Nat := ⟨"Foo", []⟩

/-- The runtime root class: every mro ends with it, and it declares only
dunder names. -/
def objectCls : PyClass Nat :=
  ⟨"object", [("__repr__", Attr.function fun self _ _ => Except.ok self)]⟩

/-- The mro of a spy class defined standalone, without a wrapped class. -/
def mroStandalone : List (MroEntry Nat) :=
  [MroEntry.cls fooCls, MroEntry.spy_base, MroEntry.cls objectCls]

/-- A wrapped class for the C10 witness. -/
def baseFrame : PyClass Nat :=
  ⟨"BaseFrame", [("m", Attr.function fun self _ _ => Except.ok self)]⟩

/-- The mro of a well-formed spy over baseFrame, for the C10 witness. -/
def mroFrame : List (MroEntry Nat) :=
  [MroEntry.cls ⟨"SpyFrame", []⟩, MroEntry.spy_base, MroEntry.cls baseFrame]

/-- A concrete heap with an empty log everywhere, for the C8 witness. -/
def heapW : Heap Nat := fun _ => []

/-- First spy class sharing the SpyBase log, for the C8 witness. -/
def spyA : SpyClsRef := ⟨"SpyA", none⟩

/-- Second spy class sharing the SpyBase log, for the C8 witness. -/
def spyB : SpyClsRef := ⟨"SpyB", none⟩

/-- A concrete call record, for the C8 witness. -/
def ciW : CallInfo Nat := ⟨CallType.instance_method, "Base", "m", [3], []⟩

/-!
Helper lemmas about dict lookup and the installation loop.
-/

theorem wrap_entry_some {sd : List (String × Attr V)} {cn : String}
    {p : String × Attr V} {q : String × WAttr V}
    (h : wrap_entry sd cn p = some q) :
    q.1 = p.1 ∧ is_dunder p.1 = false ∧ dict_get p.1 sd = none := by
  rcases p with ⟨n, a⟩
  dsimp [wrap_entry] at h
  cases hdu : is_dunder n with
  | true => simp [hdu] at h
  | false =>
    cases hov : dict_get n sd with
    | some b => simp [hdu, hov] at h
    | none =>
      refine ⟨?_, rfl, rfl⟩
      simp [hdu, hov] at h
      cases a <;> simp_all [Prod.ext_iff]

theorem filterMap_wrap_dict_get_some {sd : List (String × Attr V)}
    {cn : String} (l : List (String × Attr V)) {m : String} {a : Attr V}
    {w : WAttr V} (hl : dict_get m l = some a)
    (hw : wrap_entry sd cn (m, a) = some (m, w)) :
    dict_get m (l.filterMap (wrap_entry sd cn)) = some w := by
  induction l with
  | nil => simp [dict_get] at hl
  | cons p t ih =>
    rcases p with ⟨n, b⟩
    by_cases hnm : n = m
    · subst hnm
      have hb : b = a := by simpa [dict_get] using hl
      subst hb
      simp [List.filterMap_cons, hw, dict_get]
    · have hl' : dict_get m t = some a := by simpa [dict_get, hnm] using hl
      cases hF : wrap_entry sd cn (n, b) with
      | none => simpa [List.filterMap_cons, hF] using ih hl'
      | some q =>
        have hq : q.1 = n := (wrap_entry_some hF).1
        simpa [List.filterMap_cons, hF, dict_get, hq, hnm] using ih hl'

theorem filterMap_wrap_dict_get_none {sd : List (String × Attr V)}
    {cn : String} (l : List (String × Attr V)) {m : String}
    (hov : (dict_get m sd).isSome = true) :
    dict_get m (l.filterMap (wrap_entry sd cn)) = none := by
  induction l with
  | nil => simp [dict_get]
  | cons p t ih =>
    cases hF : wrap_entry sd cn p with
    | none => simpa [List.filterMap_cons, hF] using ih
    | some q =>
      have h3 := wrap_entry_some hF
      have hnm : p.1 ≠ m := by
        intro he
        have hn := h3.2.2
        rw [he] at hn
        rw [hn] at hov
        simp at hov
      have hq : q.1 = p.1 := h3.1
      simpa [List.filterMap_cons, hF, dict_get, hq, hnm] using ih

theorem dict_get_append_none {l1 l2 : List (String × α)} {m : String}
    (h : dict_get m l1 = none) : dict_get m (l1 ++ l2) = dict_get m l2 := by
  induction l1 with
  | nil => rfl
  | cons p t ih =>
    by_cases hp : p.1 = m
    · simp [dict_get, hp] at h
    · have h' : dict_get m t = none := by simpa [dict_get, hp] using h
      simpa [List.cons_append, dict_get, hp] using ih h'

theorem dict_get_append_some {l1 l2 : List (String × α)} {m : String}
    {x : α} (h : dict_get m l1 = some x) :
    dict_get m (l1 ++ l2) = some x := by
  induction l1 with
  | nil => simp [dict_get] at h
  | cons p t ih =>
    by_cases hp : p.1 = m
    · have hx : p.2 = x := by simpa [dict_get, hp] using h
      simp [List.cons_append, dict_get, hp, hx]
    · have h' : dict_get m t = some x := by simpa [dict_get, hp] using h
      simpa [List.cons_append, dict_get, hp] using ih h'

theorem dict_get_map_lift (sd : List (String × Attr V)) (m : String) :
    dict_get m (sd.map fun p => (p.1, p.2.lift))
      = (dict_get m sd).map Attr.lift := by
  induction sd with
  | nil => rfl
  | cons p t ih => by_cases hp : p.1 = m <;> simp [dict_get, hp, ih]

theorem string_append_right_ne (m : String) {s t : String}
    (h : s.data ≠ t.data) : m ++ s ≠ m ++ t := by
  intro he
  apply h
  have hd := congrArg String.data he
  rw [String.data_append, String.data_append] at hd
  exact List.append_cancel_left hd

theorem lift_call_eq (a : Attr V) (inv : Invocation V) (log : Log V) :
    WAttr.call a.lift inv log
      = (a.callPure inv).map (fun r => (r, log)) := by
  cases a with
  | prop g s d =>
    cases inv with
    | prop_get self => cases g <;> rfl
    | prop_set self v => cases s <;> rfl
    | prop_del self => cases d <;> rfl
    | method self args kw => rfl
    | class_call c args kw => rfl
    | static_call args kw => rfl
  | staticmethod f => cases inv <;> rfl
  | classmethod f => cases inv <;> rfl
  | function f => cases inv <;> rfl
  | data v => cases inv <;> rfl

/-!
Claim theorems.
-/

/-- Claim C1: for every non-overridden, non-reserved instance method m of
the wrapped type and every argument tuple, calling m through the spy
returns the same result as calling the wrapped type directly (second
conjunct) and appends exactly one record of kind instance_method whose
positional arguments are the explicit arguments (the receiver excluded),
whose member name is m and whose owner class name is the wrapped type
name (first conjunct). -/
theorem instance_method_spy_forwards_and_logs {V : Type}
    (sd : List (String × Attr V)) (orig : PyClass V) (m : String)
    (f : V → List V → Kwargs V → PyRes V) (self : V) (args : List V)
    (kwargs : Kwargs V) (log : Log V)
    (hdund : is_dunder m = false) (hover : dict_get m sd = none)
    (horig : dict_get m orig.dict = some (Attr.function f)) :
    call_member (spy_table sd orig) m (Invocation.method self args kwargs) log
        = some (f self args kwargs,
            log ++ [⟨CallType.instance_method, orig.name, m, args, kwargs⟩])
      ∧ orig.call_direct m (Invocation.method self args kwargs) log
        = some (f self args kwargs, log) := by
  have hw : wrap_entry sd orig.name (m, Attr.function f)
      = some (m, WAttr.function (wrap_instance_method orig.name m f)) := by
    simp [wrap_entry, hdund, hover]
  have h1 : dict_get m (install sd orig)
      = some (WAttr.function (wrap_instance_method orig.name m f)) := by
    unfold install
    exact filterMap_wrap_dict_get_some orig.dict horig hw
  have h0 : dict_get m (sd.map fun p => (p.1, p.2.lift)) = none := by
    rw [dict_get_map_lift, hover]
    rfl
  have h2 : dict_get m (spy_table sd orig)
      = some (WAttr.function (wrap_instance_method orig.name m f)) := by
    unfold spy_table
    rw [dict_get_append_none h0, h1]
  constructor
  · unfold call_member
    rw [h2]
    rfl
  · unfold PyClass.call_direct
    rw [horig]
    rfl

/-- Witness for C1: a concrete wrapped class with method inc, not
overridden; calling inc 4 through the spy yields 5 and one record, the
direct call yields 5 and no record. -/
theorem instance_method_spy_forwards_and_logs_witness :
    is_dunder "inc" = false
      ∧ dict_get "inc" ([] : List (String × Attr Nat)) = none
      ∧ dict_get "inc" origW.dict = some (Attr.function fW)
      ∧ call_member (spy_table [] origW) "inc"
          (Invocation.method 0 [4] []) []
          = some (Except.ok 5,
              [⟨CallType.instance_method, "MyTestClass", "inc", [4], []⟩])
      ∧ PyClass.call_direct origW "inc" (Invocation.method 0 [4] []) []
          = some (Except.ok 5, []) := by
  refine ⟨rfl, rfl, rfl, ?_, ?_⟩
  · exact (instance_method_spy_forwards_and_logs [] origW "inc" fW 0 [4] []
      [] rfl rfl rfl).1
  · exact (instance_method_spy_forwards_and_logs [] origW "inc" fW 0 [4] []
      [] rfl rfl rfl).2

/-- Claim C2: every member the spy class declares directly is looked up as
that declaration itself (first conjunct), and invoking it produces the
override result with the log unchanged, that is, zero records appended
(second conjunct, stated for every invocation shape). -/
theorem overridden_member_unlogged {V : Type}
    (sd : List (String × Attr V)) (orig : PyClass V) (m : String)
    (a : Attr V) (h : dict_get m sd = some a) :
    dict_get m (spy_table sd orig) = some a.lift
      ∧ ∀ (inv : Invocation V) (log : Log V),
          WAttr.call a.lift inv log
            = (a.callPure inv).map (fun r => (r, log)) := by
  constructor
  · unfold spy_table
    apply dict_get_append_some
    rw [dict_get_map_lift, h]
    rfl
  · exact fun inv log => lift_call_eq a inv log

/-- Witness for C2: a spy declaring an override m; looking it up through
the spy table finds the override, and invoking it returns the override
result 11 with the log left empty. -/
theorem overridden_member_unlogged_witness :
    dict_get "m" sdW2 = some aW
      ∧ dict_get "m" (spy_table sdW2 origW2) = some aW.lift
      ∧ WAttr.call aW.lift (Invocation.method 1 [] []) []
          = (aW.callPure (Invocation.method 1 [] [])).map
              (fun r => (r, ([] : Log Nat))) := by
  refine ⟨rfl, ?_, ?_⟩
  · exact (overridden_member_unlogged sdW2 origW2 "m" aW rfl).1
  · exact (overridden_member_unlogged sdW2 origW2 "m" aW rfl).2
      (Invocation.method 1 [] []) []

/-- Claim C3: every wrapper appends exactly one record (with the resolved
kind, the wrapped class name, and the member name, suffixed .get or .set
or .del for property accessors) and otherwise returns exactly what the
original returns.  Because the log component equals the old log plus the
record in every case while the result component is the original output
verbatim, a call whose original raises still leaves its record in the log
and the error value is propagated unchanged, never caught or translated. -/
theorem wrapper_appends_record_and_forwards {V : Type} (cn m : String) :
    (∀ (f : V → List V → Kwargs V → PyRes V) (self : V) (args : List V)
        (kwargs : Kwargs V) (log : Log V),
      wrap_instance_method cn m f self args kwargs log
        = (f self args kwargs,
            log ++ [⟨CallType.instance_method, cn, m, args, kwargs⟩]))
    ∧ (∀ (f : String → List V → Kwargs V → PyRes V) (c : String)
        (args : List V) (kwargs : Kwargs V) (log : Log V),
      wrap_class_method cn m f c args kwargs log
        = (f c args kwargs,
            log ++ [⟨CallType.class_method, cn, m, args, kwargs⟩]))
    ∧ (∀ (f : List V → Kwargs V → PyRes V) (args : List V)
        (kwargs : Kwargs V) (log : Log V),
      wrap_static_method cn m f args kwargs log
        = (f args kwargs,
            log ++ [⟨CallType.static_method, cn, m, args, kwargs⟩]))
    ∧ (∀ (g : V → PyRes V) (s : Option (V → V → PyRes V))
        (d : Option (V → PyRes V)) (self : V) (log : Log V),
      WAttr.call (wrap_property cn m (some g) s d)
          (Invocation.prop_get self) log
        = some (g self,
            log ++ [⟨CallType.property, cn, m ++ ".get", [], []⟩]))
    ∧ (∀ (g : Option (V → PyRes V)) (s : V → V → PyRes V)
        (d : Option (V → PyRes V)) (self v : V) (log : Log V),
      WAttr.call (wrap_property cn m g (some s) d)
          (Invocation.prop_set self v) log
        = some (s self v,
            log ++ [⟨CallType.property, cn, m ++ ".set", [v], []⟩]))
    ∧ (∀ (g : Option (V → PyRes V)) (s : Option (V → V → PyRes V))
        (d : V → PyRes V) (self : V) (log : Log V),
      WAttr.call (wrap_property cn m g s (some d))
          (Invocation.prop_del self) log
        = some (d self,
            log ++ [⟨CallType.property, cn, m ++ ".del", [], []⟩])) :=
  ⟨fun _ _ _ _ _ => rfl, fun _ _ _ _ _ => rfl, fun _ _ _ _ => rfl,
    fun _ _ _ _ _ => rfl, fun _ _ _ _ _ _ => rfl, fun _ _ _ _ _ => rfl⟩

/-- Counterexample to claim C4 as stated: the code does not use six record
kinds.  On a concrete wrapped property with all three accessors, the
records produced by a read, a write and a delete all carry the single kind
CallType.property: the record appended by a read has the same kind field
as the record appended by a write, so property operations are not
distinguishable by record kind (only by the member name suffix). -/
theorem property_kinds_shared_counterexample :
    WAttr.call propW (Invocation.prop_get 0) []
        = some (Except.ok 1,
            [⟨CallType.property, "Base", "p.get", [], []⟩])
      ∧ WAttr.call propW (Invocation.prop_set 0 9) []
        = some (Except.ok 9,
            [⟨CallType.property, "Base", "p.set", [9], []⟩])
      ∧ WAttr.call propW (Invocation.prop_del 0) []
        = some (Except.ok 0,
            [⟨CallType.property, "Base", "p.del", [], []⟩])
      ∧ (⟨CallType.property, "Base", "p.get", [], []⟩ : CallInfo Nat).type
        = (⟨CallType.property, "Base", "p.set", [9], []⟩ : CallInfo Nat).type :=
  ⟨rfl, rfl, rfl, rfl⟩

/-- Claim C4 as amended: the closed set of record kinds has the four
elements instance_method, class_method, static_method and property; the
three property operations share the kind property but remain independently
distinguishable through the member name, which is the base property name
suffixed .get, .set or .del respectively, and these three names are
pairwise distinct for any base name. -/
theorem call_kind_closed_and_property_suffixes {V : Type} :
    (∀ t : CallType, t = CallType.instance_method ∨ t = CallType.class_method
        ∨ t = CallType.static_method ∨ t = CallType.property)
      ∧ (∀ (cn m : String) (g : V → PyRes V) (s : Option (V → V → PyRes V))
          (d : Option (V → PyRes V)) (self : V) (log : Log V),
        WAttr.call (wrap_property cn m (some g) s d)
            (Invocation.prop_get self) log
          = some (g self,
              log ++ [⟨CallType.property, cn, m ++ ".get", [], []⟩]))
      ∧ (∀ (cn m : String) (g : Option (V → PyRes V)) (s : V → V → PyRes V)
          (d : Option (V → PyRes V)) (self v : V) (log : Log V),
        WAttr.call (wrap_property cn m g (some s) d)
            (Invocation.prop_set self v) log
          = some (s self v,
              log ++ [⟨CallType.property, cn, m ++ ".set", [v], []⟩]))
      ∧ (∀ (cn m : String) (g : Option (V → PyRes V))
          (s : Option (V → V → PyRes V)) (d : V → PyRes V) (self : V)
          (log : Log V),
        WAttr.call (wrap_property cn m g s (some d))
            (Invocation.prop_del self) log
          = some (d self,
              log ++ [⟨CallType.property, cn, m ++ ".del", [], []⟩]))
      ∧ (∀ m : String, m ++ ".get" ≠ m ++ ".set"
          ∧ m ++ ".get" ≠ m ++ ".del" ∧ m ++ ".set" ≠ m ++ ".del") := by
  refine ⟨?_, fun _ _ _ _ _ _ _ => rfl, fun _ _ _ _ _ _ _ _ => rfl,
    fun _ _ _ _ _ _ _ => rfl, fun m => ⟨?_, ?_, ?_⟩⟩
  · intro t
    cases t
    · exact Or.inl rfl
    · exact Or.inr (Or.inl rfl)
    · exact Or.inr (Or.inr (Or.inl rfl))
    · exact Or.inr (Or.inr (Or.inr rfl))
  · exact string_append_right_ne m (by decide)
  · exact string_append_right_ne m (by decide)
  · exact string_append_right_ne m (by decide)

/-- Counterexample to claim C5 as stated: the wrapped class origP has a
property p with read and write accessors; the spy redefines only the read
accessor (sdP declares p as a read-only property).  The claim predicts the
non-redefined write accessor is still wrapped and logged, but the code
skips the whole name: nothing at all is installed for p, and a write
attempt through the spy hits the read-only override, fails with
AttributeError and leaves the log empty. -/
theorem partial_property_override_counterexample :
    install sdP origP = []
      ∧ call_member (spy_table sdP origP) "p" (Invocation.prop_set 0 7) []
        = some (Except.error "AttributeError", [])
      ∧ call_member (spy_table sdP origP) "p" (Invocation.prop_get 0) []
        = some (Except.ok 2, []) :=
  ⟨rfl, rfl, rfl⟩

/-- Claim C5 as amended: the override guard is name-granular, not
per-sub-operation.  If the spy class declares a member name directly, no
wrapper whatsoever is installed under that name — in particular, for a
property, redefining any accessor suppresses wrapping of all accessors —
and lookup through the spy finds exactly the declared override. -/
theorem override_guard_is_name_granular {V : Type}
    (sd : List (String × Attr V)) (orig : PyClass V) (m : String)
    (h : (dict_get m sd).isSome = true) :
    dict_get m (install sd orig) = none
      ∧ dict_get m (spy_table sd orig) = (dict_get m sd).map Attr.lift := by
  constructor
  · unfold install
    exact filterMap_wrap_dict_get_none orig.dict h
  · obtain ⟨a, ha⟩ := Option.isSome_iff_exists.mp h
    have h0 : dict_get m (sd.map fun p => (p.1, p.2.lift))
        = some a.lift := by
      rw [dict_get_map_lift, ha]
      rfl
    unfold spy_table
    rw [dict_get_append_some h0, ha]
    rfl

/-- Witness for the amended C5 at the concrete counterexample input. -/
theorem override_guard_is_name_granular_witness :
    (dict_get "p" sdP).isSome = true
      ∧ dict_get "p" (install sdP origP) = none
      ∧ dict_get "p" (spy_table sdP origP)
        = (dict_get "p" sdP).map Attr.lift := by
  refine ⟨rfl, ?_, ?_⟩
  · exact (override_guard_is_name_granular sdP origP "p" rfl).1
  · exact (override_guard_is_name_granular sdP origP "p" rfl).2

/-- Claim C6 evaluated on the failing input: a spy class defined standalone,
`class Foo(SpyBase)`, whose mro is (Foo, SpyBase, object).  The spec says
this construction raises; the code instead resolves the wrapped type to
object (the entry after SpyBase, which always exists because object closes
every mro), wraps nothing (object declares only dunder names) and returns
successfully.  The ValueError/IndexError guard carrying the message
"SpyBase must be used as a mixin with another class" can therefore never
fire during a real class definition. -/
theorem standalone_spy_definition_raises_nothing :
    init_subclass ([] : List (String × Attr Nat)) mroStandalone
      = Except.ok ([], mroStandalone) := rfl

/-- Claim C7: for a wrapped property with only a read accessor, the spy
installs a wrapper property that also lacks write and delete accessors, so
an assignment or delete attempt through the spy fails with the runtime
AttributeError and the log is unchanged by the attempt, while a read is
wrapped and logged normally. -/
theorem readonly_property_attempts_fail_unlogged {V : Type}
    (sd : List (String × Attr V)) (orig : PyClass V) (m : String)
    (g : V → PyRes V) (hdund : is_dunder m = false)
    (hover : dict_get m sd = none)
    (horig : dict_get m orig.dict = some (Attr.prop (some g) none none)) :
    ∀ (self v : V) (log : Log V),
      call_member (spy_table sd orig) m (Invocation.prop_set self v) log
          = some (Except.error "AttributeError", log)
        ∧ call_member (spy_table sd orig) m (Invocation.prop_del self) log
          = some (Except.error "AttributeError", log)
        ∧ call_member (spy_table sd orig) m (Invocation.prop_get self) log
          = some (g self,
              log ++ [⟨CallType.property, orig.name, m ++ ".get", [], []⟩]) := by
  intro self v log
  have hw : wrap_entry sd orig.name (m, Attr.prop (some g) none none)
      = some (m, wrap_property orig.name m (some g) none none) := by
    simp [wrap_entry, hdund, hover]
  have h1 : dict_get m (install sd orig)
      = some (wrap_property orig.name m (some g) none none) := by
    unfold install
    exact filterMap_wrap_dict_get_some orig.dict horig hw
  have h0 : dict_get m (sd.map fun p => (p.1, p.2.lift)) = none := by
    rw [dict_get_map_lift, hover]
    rfl
  have h2 : dict_get m (spy_table sd orig)
      = some (wrap_property orig.name m (some g) none none) := by
    unfold spy_table
    rw [dict_get_append_none h0, h1]
  refine ⟨?_, ?_, ?_⟩ <;> (unfold call_member; rw [h2]) <;> rfl

/-- Witness for C7: a concrete read-only property; the write and delete
attempts fail with AttributeError leaving the log empty, the read is
logged. -/
theorem readonly_property_attempts_fail_unlogged_witness :
    is_dunder "p" = false
      ∧ dict_get "p" ([] : List (String × Attr Nat)) = none
      ∧ dict_get "p" origRO.dict = some (Attr.prop (some gRO) none none)
      ∧ call_member (spy_table [] origRO) "p" (Invocation.prop_set 3 9) []
        = some (Except.error "AttributeError", [])
      ∧ call_member (spy_table [] origRO) "p" (Invocation.prop_del 3) []
        = some (Except.error "AttributeError", [])
      ∧ call_member (spy_table [] origRO) "p" (Invocation.prop_get 3) []
        = some (Except.ok 6,
            [⟨CallType.property, "BaseRO", "p.get", [], []⟩]) := by
  refine ⟨rfl, rfl, rfl, ?_, ?_, ?_⟩
  · exact (readonly_property_attempts_fail_unlogged [] origRO "p" gRO
      rfl rfl rfl 3 9 []).1
  · exact (readonly_property_attempts_fail_unlogged [] origRO "p" gRO
      rfl rfl rfl 3 9 []).2.1
  · exact (readonly_property_attempts_fail_unlogged [] origRO "p" gRO
      rfl rfl rfl 3 9 []).2.2

/-- Claim C8: spy classes that do not declare their own _calls storage all
resolve it to the single list owned by SpyBase: the logs seen through two
such spy classes (and through SpyBase itself) coincide, a record appended
through one is visible through the other, and clearing through one empties
what the other sees. -/
theorem call_log_shared_across_spy_types {V : Type} (h : Heap V)
    (spybase_loc : Nat) (c1 c2 : SpyClsRef) (info : CallInfo V)
    (h1 : c1.calls_loc = none) (h2 : c2.calls_loc = none) :
    (get_calls_op h spybase_loc c1).1 = (get_calls_op h spybase_loc c2).1
      ∧ (get_calls_op h spybase_loc c1).1
        = (get_calls_op h spybase_loc spy_base_ref).1
      ∧ (get_calls_op (append_call h spybase_loc c1 info) spybase_loc c2).1
        = (get_calls_op h spybase_loc c2).1 ++ [info]
      ∧ (get_calls_op (clear_calls_op h spybase_loc c1) spybase_loc c2).1
        = [] := by
  refine ⟨?_, ?_, ?_, ?_⟩ <;>
    simp [get_calls_op, append_call, clear_calls_op,
      resolve_calls_loc, spy_base_ref, h1, h2]

/-- Witness for C8 on a concrete heap and two concrete spy classes. -/
theorem call_log_shared_across_spy_types_witness :
    spyA.calls_loc = none
      ∧ spyB.calls_loc = none
      ∧ (get_calls_op heapW 0 spyA).1 = (get_calls_op heapW 0 spyB).1
      ∧ (get_calls_op (append_call heapW 0 spyA ciW) 0 spyB).1
        = (get_calls_op heapW 0 spyB).1 ++ [ciW]
      ∧ (get_calls_op (clear_calls_op heapW 0 spyA) 0 spyB).1 = [] := by
  refine ⟨rfl, rfl, ?_, ?_, ?_⟩
  · exact (call_log_shared_across_spy_types heapW 0 spyA spyB ciW rfl rfl).1
  · exact (call_log_shared_across_spy_types heapW 0 spyA spyB ciW
      rfl rfl).2.2.1
  · exact (call_log_shared_across_spy_types heapW 0 spyA spyB ciW
      rfl rfl).2.2.2

/-- Claim C9: get_calls returns the full current log (the resolved list,
in insertion order) and leaves the state untouched, so two consecutive
calls with nothing in between return the identical sequence. -/
theorem get_calls_returns_log_without_clearing {V : Type} (h : Heap V)
    (spybase_loc : Nat) (c : SpyClsRef) :
    (get_calls_op h spybase_loc c).1 = h (resolve_calls_loc spybase_loc c)
      ∧ (get_calls_op h spybase_loc c).2 = h
      ∧ (get_calls_op (get_calls_op h spybase_loc c).2 spybase_loc c).1
        = (get_calls_op h spybase_loc c).1 :=
  ⟨rfl, rfl, rfl⟩

/-- Claim C10: defining a spy does not modify the wrapped type.  The
construction step returns the ambient class list unchanged (wrappers are
installed only into the spy member table), and a member invoked directly
on the wrapped class behaves as the original attribute alone dictates and
never extends the call log. -/
theorem spy_definition_preserves_wrapped_type {V : Type} :
    (∀ (sd : List (String × Attr V)) (mro : List (MroEntry V))
        (tbl : List (String × WAttr V)) (mro' : List (MroEntry V)),
      init_subclass sd mro = Except.ok (tbl, mro') → mro' = mro)
      ∧ ∀ (c : PyClass V) (m : String) (inv : Invocation V) (log : Log V)
          (r : PyRes V) (log' : Log V),
        c.call_direct m inv log = some (r, log') → log' = log := by
  constructor
  · intro sd mro tbl mro' hok
    unfold init_subclass at hok
    cases hres : resolve_original mro with
    | error e =>
      rw [hres] at hok
      simp at hok
    | ok orig =>
      rw [hres] at hok
      have hp := Except.ok.inj hok
      exact (congrArg Prod.snd hp).symm
  · intro c m inv log r log' hcall
    unfold PyClass.call_direct at hcall
    cases hg : dict_get m c.dict with
    | none => simp [hg] at hcall
    | some a =>
      cases hp : a.callPure inv with
      | none => simp [hg, hp] at hcall
      | some r0 =>
        simp [hg, hp] at hcall
        exact hcall.2.symm

/-- Witness for C10: a concrete spy construction returning the mro
unchanged, and a concrete direct call leaving the log empty. -/
theorem spy_definition_preserves_wrapped_type_witness :
    init_subclass ([] : List (String × Attr Nat)) mroFrame
        = Except.ok (spy_table [] baseFrame, mroFrame)
      ∧ mroFrame = mroFrame
      ∧ PyClass.call_direct baseFrame "m" (Invocation.method 3 [] []) []
        = some (Except.ok 3, [])
      ∧ ([] : Log Nat) = [] := by
  refine ⟨rfl, ?_, rfl, ?_⟩
  · exact (spy_definition_preserves_wrapped_type (V := Nat)).1 []
      mroFrame (spy_table [] baseFrame) mroFrame rfl
  · exact (spy_definition_preserves_wrapped_type (V := Nat)).2 baseFrame
      "m" (Invocation.method 3 [] []) [] (Except.ok 3) [] rfl

end Spybase
